import Mathlib

/-!
Verification of the NimbusVault authentication core against its design
specification.  The definitions below are a shallow embedding of the Python
sources:

  * `src/nimbusvault/auth-service/app.py`   (namespace `AuthService`)
  * `src/nimbusvault/auth-service/jwt_utils.py` (namespace `AuthJwtUtils`)
  * `src/nimbusvault/shared/jwt_utils.py`   (namespace `Shared`)
  * `src/nimbusvault/shared/auth_middleware.py` (namespace `Middleware`)

Timestamps are modelled as `Int` seconds (`datetime.utcnow()` becomes an
explicit `now : Int` parameter).  A JWT is modelled as its decoded payload
together with the identifier of the key that signed it; an arbitrary string
that does not parse as a JWT is the `none` case of `TokenStr`.  The
private/public half of one RSA key pair is modelled by a shared key
identifier (the source also has an HS256 fallback where the two halves are
literally equal); a signature check succeeds exactly when the verifying key
identifier matches the signing one.
-/

/-- Decoded JWT payload.  Mirrors the dict built by `create_token`
(`app.py` lines 141-160): claims `sub`, `uid`, `exp`, `iat` and the
optional `type` marker (set to the string `refresh` for refresh tokens).
Claims that a given token omits are `none`. -/
structure Payload where
  sub : String
  uid : Option Nat
  exp : Option Int
  iat : Option Int
  type : Option String
deriving DecidableEq

/-- A syntactically well-formed signed token: its payload plus the
identifier of the signing key. -/
structure SignedToken where
  payload : Payload
  sigKey : Nat
deriving DecidableEq

/-- A candidate token string: `some t` parses as the signed token `t`,
`none` is garbage that fails JWT decoding outright. -/
abbrev TokenStr : Type := Option SignedToken

/-- Error raised by the modelled `jwt.decode` (python-jose / PyJWT). -/
inductive JwtError where
  | malformed
  | badSignature
  | expired
deriving DecidableEq

/-- `jwt.decode(token, key, algorithms=[...])`: fails on garbage input,
on a signature made with a non-matching key, and on an `exp` claim in the
past; otherwise returns the payload.  Tokens without an `exp` claim skip
the expiry check, as both python-jose and PyJWT do. -/
def jwtDecode (tok : TokenStr) (key : Nat) (now : Int) : Except JwtError Payload :=
  match tok with
  | none => .error .malformed
  | some st =>
    if st.sigKey = key then
      match st.payload.exp with
      | some e => if e < now then .error .expired else .ok st.payload
      | none => .ok st.payload
    else .error .badSignature

/-- HTTP error as raised via `HTTPException(status_code, detail)`. -/
structure HttpError where
  status : Nat
  detail : String
deriving DecidableEq

namespace AuthService

/-- The RSA private signing key of `app.py` (the matching pair is modelled
by a shared identifier; in the HS256 fallback the two are literally equal). -/
def PRIVATE_KEY : Nat := 0

/-- The RSA public verification key matching `PRIVATE_KEY`. -/
def PUBLIC_KEY : Nat := 0

/-- `ACCESS_TOKEN_EXPIRE_SECONDS = 3600` (`app.py` line 53). -/
def ACCESS_TOKEN_EXPIRE_SECONDS : Int := 3600

/-- The `data` dict passed to `create_token`: call sites pass `sub` and
optionally `uid`. -/
structure TokenData where
  sub : String
  uid : Option Nat
deriving DecidableEq

/-- `create_token(data, expires=None, refresh=False)` (`app.py` 141-160):
copies `data`, sets `exp = now + expires` (defaulting to
`ACCESS_TOKEN_EXPIRE_SECONDS`), `iat = now`, and marks
`type = refresh` when `refresh` is true; signs with the private key. -/
def create_token (data : TokenData) (now : Int) (expires : Option Int)
    (refresh : Bool) : SignedToken :=
  let e := expires.getD ACCESS_TOKEN_EXPIRE_SECONDS
  { payload :=
      { sub := data.sub
        uid := data.uid
        exp := some (now + e)
        iat := some now
        type := if refresh then some ("refresh") else none }
    sigKey := PRIVATE_KEY }

/-- The `HTTPException(401, 'Invalid token')` raised by `verify_token`. -/
def invalidTokenError : HttpError := ⟨401, "Invalid token"⟩

/-- `verify_token(token, refresh=False)` (`app.py` 162-171): decodes with
the public key (signature and expiry are checked inside `jwt.decode`); when
`refresh` is requested it additionally raises unless the payload carries
`type = refresh`; every `JWTError` is caught and surfaced as a 401. -/
def verify_token (tok : TokenStr) (now : Int) (refresh : Bool) :
    Except HttpError Payload :=
  match jwtDecode tok PUBLIC_KEY now with
  | .error _ => .error invalidTokenError
  | .ok payload =>
    if refresh ∧ payload.type ≠ some ("refresh") then .error invalidTokenError
    else .ok payload

/-- The in-memory rate-limit table `RATE_LIMIT` (`app.py` line 64), a map
from client address to the list of recorded attempt timestamps (addresses
with no entry map to the empty list, as `RATE_LIMIT.get(ip, [])` does). -/
def RateState : Type := String → List Int

/-- `RATE_LIMIT_WINDOW = 60` (`app.py` line 65). -/
def RATE_LIMIT_WINDOW : Int := 60

/-- `RATE_LIMIT_COUNT = 5` (`app.py` line 66). -/
def RATE_LIMIT_COUNT : Nat := 5

/-- The pruning comprehension of `check_rate_limit` (`app.py` line 134):
keep exactly the timestamps strictly younger than the window. -/
def prune (now : Int) (l : List Int) : List Int :=
  l.filter fun t => decide (now - t < RATE_LIMIT_WINDOW)

/-- `check_rate_limit(ip)` (`app.py` 130-139): prune the stored timestamps,
raise 429 when at least `RATE_LIMIT_COUNT` remain (leaving `RATE_LIMIT`
untouched, since the write-back on line 139 is never reached), otherwise
record `now` and store the pruned-plus-new list.  The `Bool` result is
`true` for allow, `false` for the 429 rejection. -/
def check_rate_limit (ip : String) (now : Int) (st : RateState) :
    Bool × RateState :=
  let timestamps := prune now (st ip)
  if RATE_LIMIT_COUNT ≤ timestamps.length then
    (false, st)
  else
    (true, fun k => if k = ip then timestamps ++ [now] else st k)

/-- Runs `check_rate_limit` for one client at each time of the list in
order, threading the table; returns the allow/reject outcomes and the
final table. -/
def runCalls (ip : String) (times : List Int) (st : RateState) :
    List Bool × RateState :=
  match times with
  | [] => ([], st)
  | t :: ts =>
    let r := check_rate_limit ip t st
    let rest := runCalls ip ts r.2
    (r.1 :: rest.1, rest.2)

end AuthService

/-! ### Password hasher

`hash_password` / `verify_password` (`app.py` 188-194) delegate to
`pwd_context` (`app.py` line 56), a passlib bcrypt context whose
implementation is not part of `src/`. -/

/-- A parsed bcrypt hash string: the embedded salt and the digest. -/
structure BcryptHash where
  salt : Nat
  digest : String × Nat
deriving DecidableEq

/-- Modelled from the spec: the bcrypt hashing primitive behind
`pwd_context` (`app.py` line 56) is library code absent from `src/`.
Following section 4.1 it is an ideal one-way salted hash: the digest is
determined by, and (ideally) collision-free in, the pair
(plaintext, salt); modelled as that pair itself. -/
def bcrypt_digest (p : String) (salt : Nat) : String × Nat := (p, salt)

namespace AuthService

/-- `hash_password(password)` (`app.py` 188-190): salted bcrypt hash; the
salt drawn internally by passlib is an explicit parameter here. -/
def hash_password (password : String) (salt : Nat) : BcryptHash :=
  { salt := salt, digest := bcrypt_digest password salt }

/-- `verify_password(plain_password, hashed_password)` (`app.py` 192-194):
re-hash the plaintext with the salt embedded in the hash string and
compare.  A malformed hash string (the `none` case) verifies as false; per
spec section 4.1 the operation never raises (it is a total function). -/
def verify_password (plain_password : String) (hashed_password : Option BcryptHash) :
    Bool :=
  match hashed_password with
  | none => false
  | some h => decide (bcrypt_digest plain_password h.salt = h.digest)

/-- The `User` pydantic model (`app.py` 110-114). -/
structure User where
  id : Nat
  username : String
  email : String
  password_hash : Option BcryptHash
deriving DecidableEq

end AuthService

namespace AuthJwtUtils

/-- `SECRET_KEY = "secret"` of `auth-service/jwt_utils.py` (HS256, so the
same identifier signs and verifies). -/
def SECRET_KEY : Nat := 2

/-- `ACCESS_TOKEN_EXPIRE_MINUTES = 30` (`auth-service/jwt_utils.py`). -/
def ACCESS_TOKEN_EXPIRE_MINUTES : Int := 30

/-- `create_token(data)` of `auth-service/jwt_utils.py`: copies `data` and
adds only an `exp` claim 30 minutes out (no `iat`, no `type`), signed with
the module's own secret. -/
def create_token (data : AuthService.TokenData) (now : Int) : SignedToken :=
  { payload :=
      { sub := data.sub
        uid := data.uid
        exp := some (now + 60 * ACCESS_TOKEN_EXPIRE_MINUTES)
        iat := none
        type := none }
    sigKey := SECRET_KEY }

end AuthJwtUtils

namespace AuthService

/-- The value carried by an `Authorization` request header: either a
`Bearer <token>` value (case-insensitive marker, `app.py` line 176) or some
other scheme. -/
inductive AuthHeaderVal where
  | bearer (t : TokenStr)
  | other

/-- `get_token_from_request(request)` (`app.py` 173-178): the bearer header
wins; otherwise fall back to the `access_token` cookie. -/
def get_token_from_request (authHeader : Option AuthHeaderVal)
    (accessCookie : Option TokenStr) : Option TokenStr :=
  match authHeader with
  | some (.bearer t) => some t
  | _ => accessCookie

/-- `get_current_user(request)` (`app.py` 180-186): 401 when no token is
present, otherwise the result of `verify_token` without a kind
requirement. -/
def get_current_user (authHeader : Option AuthHeaderVal)
    (accessCookie : Option TokenStr) (now : Int) : Except HttpError Payload :=
  match get_token_from_request authHeader accessCookie with
  | none => .error ⟨401, "Not authenticated"⟩
  | some tok => verify_token tok now false

/-- Outcome of the `/login` endpoint, mirroring its four exits:
HTTP 429 from the rate limiter, the enhanced-store success response
(access + refresh tokens), the legacy plaintext-store success response
(one token), and HTTP 401 invalid credentials. -/
inductive LoginOutcome where
  | rateLimited
  | success (access : SignedToken) (refreshToken : SignedToken)
  | legacySuccess (token : SignedToken)
  | invalidCredentials
deriving DecidableEq

/-- `login(data, request)` (`app.py` 222-261).  First the rate-limit gate
(its 429 aborts the handler with `RATE_LIMIT` as the check left it); then
the enhanced `user_store` path (bcrypt check; mints a 30-minute access
token and a 7-day refresh token); then the legacy plaintext `users` path
(mints one token via the imported `jwt_utils.create_token`, which is
available since `auth-service/jwt_utils.py` exists); otherwise 401.
`user_store` and the legacy `users` dict are passed explicitly as maps. -/
def login (username password clientHost : String) (now : Int) (st : RateState)
    (user_store : String → Option User) (users : String → Option String) :
    LoginOutcome × RateState :=
  let r := check_rate_limit clientHost now st
  if r.1 = false then (.rateLimited, r.2)
  else
    let authed :=
      match user_store username with
      | some user =>
        if verify_password password user.password_hash then some user else none
      | none => none
    match authed with
    | some user =>
      (.success
        (create_token ⟨user.username, some user.id⟩ now (some (60 * 30)) false)
        (create_token ⟨user.username, some user.id⟩ now (some (60 * 60 * 24 * 7)) true),
       r.2)
    | none =>
      if users username = some password then
        (.legacySuccess (AuthJwtUtils.create_token ⟨username, none⟩ now), r.2)
      else
        (.invalidCredentials, r.2)

/-- `refresh(request)` (`app.py` 263-280): pick the `refresh_token` cookie
or, failing that, the token `get_token_from_request` finds; 401 when none;
verify with `refresh=True`; 401 when the subject is absent from
`user_store`; otherwise mint (only) a fresh 30-minute access token for the
stored user and return it. -/
def refresh (refreshCookie : Option TokenStr) (authHeader : Option AuthHeaderVal)
    (accessCookie : Option TokenStr) (now : Int)
    (user_store : String → Option User) : Except HttpError SignedToken :=
  match refreshCookie.orElse (fun _ => get_token_from_request authHeader accessCookie) with
  | none => .error ⟨401, "No refresh token provided"⟩
  | some tok =>
    match verify_token tok now true with
    | .error e => .error e
    | .ok payload =>
      match user_store payload.sub with
      | none => .error ⟨401, "User not found"⟩
      | some user =>
        .ok (create_token ⟨user.username, some user.id⟩ now (some (60 * 30)) false)

end AuthService

namespace Shared

/-- `SECRET_KEY = "your-secret-key"` of `shared/jwt_utils.py` (HS256). -/
def SECRET_KEY : Nat := 3

/-- `verify_token(token)` of `shared/jwt_utils.py` (lines 18-24): decode
with the module secret and return the contained data, or `None` when any
`PyJWTError` is raised.  Every exception of the decoder is caught, so the
function is total: its value on any input string is the decode result or
`none`, never a propagated exception. -/
def verify_token (tok : TokenStr) (now : Int) : Option Payload :=
  match jwtDecode tok SECRET_KEY now with
  | .ok d => some d
  | .error _ => none

end Shared

namespace Middleware

/-- Result of one request through `AuthMiddleware.dispatch`
(`shared/auth_middleware.py` 12-27): either the short-circuit 401
`JSONResponse` (the wrapped handler is not invoked, so no handler value
occurs in this constructor), or the response of `call_next` together with
the `request.state.user` that was attached (`none` models the anonymous
`request.state.user = None`). -/
inductive DispatchResult (α : Type) where
  | rejected (status : Nat) (detail : String)
  | handled (user : Option Payload) (response : α)
deriving DecidableEq

/-- Candidate-token extraction of `dispatch` (lines 13-18): bearer header
first, `access_token` cookie second. -/
def getToken (authHeader : Option AuthService.AuthHeaderVal)
    (accessCookie : Option TokenStr) : Option TokenStr :=
  match authHeader with
  | some (.bearer t) => some t
  | _ => accessCookie

/-- `AuthMiddleware.dispatch(request, call_next)` (lines 12-27): when a
candidate token is present, decode it with the configured public key —
on failure answer 401 immediately, on success attach the payload and call
the handler; when no candidate is present, attach `none` and call the
handler. -/
def dispatch {α : Type} (authHeader : Option AuthService.AuthHeaderVal)
    (accessCookie : Option TokenStr) (publicKey : Nat) (now : Int)
    (callNext : Option Payload → α) : DispatchResult α :=
  match getToken authHeader accessCookie with
  | some tok =>
    match jwtDecode tok publicKey now with
    | .ok payload => .handled (some payload) (callNext (some payload))
    | .error _ => .rejected 401 "Invalid token"
  | none => .handled none (callNext none)

/-- `get_current_user(request)` (`shared/auth_middleware.py` 29-32): 401
when no user was attached. -/
def get_current_user (stateUser : Option Payload) : Except HttpError Payload :=
  match stateUser with
  | none => .error ⟨401, "Not authenticated"⟩
  | some u => .ok u

end Middleware



/-! ### Helper lemmas about the rate limiter -/

namespace AuthService

theorem prune_eq_self (now : Int) (l : List Int)
    (h : ∀ t ∈ l, now - t < RATE_LIMIT_WINDOW) : prune now l = l := by
  unfold prune
  exact List.filter_eq_self.mpr fun a ha => decide_eq_true (h a ha)

theorem prune_eq_nil (now : Int) (l : List Int)
    (h : ∀ t ∈ l, RATE_LIMIT_WINDOW ≤ now - t) : prune now l = [] := by
  unfold prune
  refine List.filter_eq_nil_iff.mpr fun a ha => ?_
  have := h a ha
  simp only [decide_eq_true_eq]
  omega

theorem check_rate_limit_allow (ip : String) (now : Int) (st : RateState)
    (h : (prune now (st ip)).length < RATE_LIMIT_COUNT) :
    check_rate_limit ip now st =
      (true, fun k => if k = ip then prune now (st ip) ++ [now] else st k) := by
  unfold check_rate_limit
  rw [if_neg (by omega)]

theorem check_rate_limit_reject (ip : String) (now : Int) (st : RateState)
    (h : RATE_LIMIT_COUNT ≤ (prune now (st ip)).length) :
    check_rate_limit ip now st = (false, st) := by
  unfold check_rate_limit
  rw [if_pos h]

theorem check_step_allow (ip : String) (now : Int) (st : RateState) (l : List Int)
    (hl : st ip = l) (h : (prune now l).length < RATE_LIMIT_COUNT) :
    (check_rate_limit ip now st).1 = true ∧
    (check_rate_limit ip now st).2 ip = prune now l ++ [now] ∧
    ∀ k, k ≠ ip → (check_rate_limit ip now st).2 k = st k := by
  rw [check_rate_limit_allow ip now st (by rw [hl]; exact h)]
  refine ⟨rfl, ?_, ?_⟩
  · simp [hl]
  · intro k hk
    simp [hk]

/-- The outcome of a rate-limit check and the checked key's new record
depend only on that key's stored record. -/
theorem check_rate_limit_congr (ip : String) (now : Int) (st1 st2 : RateState)
    (h : st1 ip = st2 ip) :
    (check_rate_limit ip now st1).1 = (check_rate_limit ip now st2).1 ∧
    (check_rate_limit ip now st1).2 ip = (check_rate_limit ip now st2).2 ip := by
  unfold check_rate_limit
  rw [h]
  by_cases hc : RATE_LIMIT_COUNT ≤ (prune now (st2 ip)).length
  · rw [if_pos hc, if_pos hc]
    exact ⟨rfl, h⟩
  · rw [if_neg hc, if_neg hc]
    exact ⟨rfl, by simp⟩

theorem create_token_eq (data : TokenData) (now : Int) (expires : Option Int) :
    create_token data now expires false =
      { payload :=
          { sub := data.sub, uid := data.uid,
            exp := some (now + expires.getD ACCESS_TOKEN_EXPIRE_SECONDS),
            iat := some now, type := none }
        sigKey := PRIVATE_KEY } := rfl

theorem create_token_refresh_eq (data : TokenData) (now : Int) (expires : Option Int) :
    create_token data now expires true =
      { payload :=
          { sub := data.sub, uid := data.uid,
            exp := some (now + expires.getD ACCESS_TOKEN_EXPIRE_SECONDS),
            iat := some now, type := some ("refresh") }
        sigKey := PRIVATE_KEY } := rfl

/-- Decoding a token the issuer just minted: the signature check passes
(matching key pair) and only the expiry decides the outcome. -/
theorem jwtDecode_create_token (data : TokenData) (now : Int) (expires : Option Int)
    (refresh : Bool) (t : Int) :
    jwtDecode (some (create_token data now expires refresh)) PUBLIC_KEY t =
      if now + expires.getD ACCESS_TOKEN_EXPIRE_SECONDS < t then .error .expired
      else .ok (create_token data now expires refresh).payload := by
  cases refresh <;>
    simp only [create_token, jwtDecode, PRIVATE_KEY, PUBLIC_KEY, if_pos, if_neg,
      Bool.false_eq_true, Bool.true_eq_false, ite_false, ite_true, if_true, if_false]

end AuthService

/-- C1: a token minted by `create_token` for `(subject, uid)` with a
positive ttl verifies successfully at every time strictly before the ttl
elapses, yielding claims with the same subject and uid; at every time
strictly after the ttl has elapsed, decoding fails with `expired` and
`verify_token` rejects with the 401 invalid-token error. -/
theorem C1_issue_verify_roundtrip (sub : String) (uid : Option Nat)
    (ttl t0 t : Int) (_httl : 0 < ttl) :
    (t - t0 < ttl →
      AuthService.verify_token
        (some (AuthService.create_token ⟨sub, uid⟩ t0 (some ttl) false)) t false =
        .ok { sub := sub, uid := uid, exp := some (t0 + ttl), iat := some t0,
              type := none }) ∧
    (ttl < t - t0 →
      jwtDecode (some (AuthService.create_token ⟨sub, uid⟩ t0 (some ttl) false))
          AuthService.PUBLIC_KEY t = .error .expired ∧
      AuthService.verify_token
        (some (AuthService.create_token ⟨sub, uid⟩ t0 (some ttl) false)) t false =
        .error AuthService.invalidTokenError) := by
  have hdec := AuthService.jwtDecode_create_token ⟨sub, uid⟩ t0 (some ttl) false t
  constructor
  · intro h
    rw [if_neg (by simp only [Option.getD]; omega)] at hdec
    rw [AuthService.create_token_eq] at hdec
    simp only [Option.getD_some] at hdec
    simp [AuthService.verify_token, AuthService.create_token_eq, hdec]
  · intro h
    rw [if_pos (by simp only [Option.getD]; omega)] at hdec
    refine ⟨hdec, ?_⟩
    rw [AuthService.create_token_eq] at hdec
    simp only [Option.getD_some] at hdec
    simp [AuthService.verify_token, AuthService.create_token_eq, hdec]

/-- C2 counterexample: the claim asserts that a refresh-kind token is
rejected when verified in access mode, but `verify_token` performs a kind
check only when `refresh=True`; a valid, unexpired refresh token verified
with `refresh=False` (the only access-mode verification the code offers)
is accepted, claims and all. -/
theorem C2_counterexample :
    AuthService.verify_token
      (some (AuthService.create_token ⟨"alice", some 1⟩ 0 (some 604800) true)) 10 false =
    .ok { sub := "alice", uid := some 1, exp := some 604800, iat := some 0,
          type := some ("refresh") } := rfl

/-- C2 (amended): kind separation holds in one direction only — a token
minted with kind access is always rejected by verification requiring kind
refresh; in the other direction the code performs no kind check, and
`verify_token` with `refresh=False` accepts an unexpired refresh-kind
token. -/
theorem C2_kind_separation (data : AuthService.TokenData) (expires : Option Int)
    (t0 t : Int) :
    AuthService.verify_token
        (some (AuthService.create_token data t0 expires false)) t true =
      .error AuthService.invalidTokenError ∧
    (t ≤ t0 + expires.getD AuthService.ACCESS_TOKEN_EXPIRE_SECONDS →
      AuthService.verify_token
          (some (AuthService.create_token data t0 expires true)) t false =
        .ok ((AuthService.create_token data t0 expires true).payload)) := by
  constructor
  · have hdec := AuthService.jwtDecode_create_token data t0 expires false t
    rw [AuthService.create_token_eq] at hdec
    by_cases hexp : t0 + expires.getD AuthService.ACCESS_TOKEN_EXPIRE_SECONDS < t
    · rw [if_pos hexp] at hdec
      simp [AuthService.verify_token, AuthService.create_token_eq, hdec]
    · rw [if_neg hexp] at hdec
      simp [AuthService.verify_token, AuthService.create_token_eq, hdec]
  · intro h
    have hdec := AuthService.jwtDecode_create_token data t0 expires true t
    rw [if_neg (by omega)] at hdec
    rw [AuthService.create_token_refresh_eq] at hdec
    simp [AuthService.verify_token, AuthService.create_token_refresh_eq, hdec]

/-- C9: when the rate limiter rejects, the whole rate-limit table is
returned exactly as it was before the call — the rejected attempt is not
recorded and the stale entries dropped by the in-call prune are not
removed from the store, because the write-back happens only on the allow
path. -/
theorem C9_reject_leaves_state_unchanged (ip : String) (now : Int)
    (st : AuthService.RateState)
    (h : AuthService.RATE_LIMIT_COUNT ≤ (AuthService.prune now (st ip)).length) :
    AuthService.check_rate_limit ip now st = (false, st) :=
  AuthService.check_rate_limit_reject ip now st h

theorem C9_witness :
    AuthService.check_rate_limit ("a") 10
      (fun k => if k = ("a") then [0, 1, 2, 3, 4] else []) =
    (false, fun k => if k = ("a") then [0, 1, 2, 3, 4] else []) :=
  C9_reject_leaves_state_unchanged ("a") 10
    (fun k => if k = ("a") then [0, 1, 2, 3, 4] else []) (by decide)

/-- C10: the shared verifier is total at its interface — for every input
string (parsed token or garbage) and time, `Shared.verify_token` equals
the decode result when decoding succeeds and `none` when it fails, never
propagating an exception (it is a total function of its input). -/
theorem C10_shared_verify_total (tok : TokenStr) (now : Int) :
    Shared.verify_token tok now = (jwtDecode tok Shared.SECRET_KEY now).toOption := by
  unfold Shared.verify_token
  cases jwtDecode tok Shared.SECRET_KEY now <;> rfl

theorem C1_witness :
    (AuthService.verify_token
        (some (AuthService.create_token ⟨"alice", some 1⟩ 0 (some 10) false)) 5 false =
      .ok { sub := "alice", uid := some 1, exp := some 10, iat := some 0,
            type := none }) ∧
    (jwtDecode (some (AuthService.create_token ⟨"alice", some 1⟩ 0 (some 10) false))
        AuthService.PUBLIC_KEY 20 = .error .expired ∧
      AuthService.verify_token
        (some (AuthService.create_token ⟨"alice", some 1⟩ 0 (some 10) false)) 20 false =
        .error AuthService.invalidTokenError) :=
  ⟨(C1_issue_verify_roundtrip ("alice") (some 1) 10 0 5 (by decide)).1 (by decide),
   (C1_issue_verify_roundtrip ("alice") (some 1) 10 0 20 (by decide)).2 (by decide)⟩

theorem C2_kind_separation_witness :
    (AuthService.verify_token
        (some (AuthService.create_token ⟨"bob", some 2⟩ 0 (some 3600) false)) 5 true =
      .error AuthService.invalidTokenError) ∧
    (AuthService.verify_token
        (some (AuthService.create_token ⟨"bob", some 2⟩ 0 (some 3600) true)) 5 false =
      .ok ((AuthService.create_token ⟨"bob", some 2⟩ 0 (some 3600) true).payload)) :=
  ⟨(C2_kind_separation ⟨"bob", some 2⟩ (some 3600) 0 5).1,
   (C2_kind_separation ⟨"bob", some 2⟩ (some 3600) 0 5).2 (by decide)⟩

/-- C3: the rate limiter is a sliding-window counter with window 60 and
bound 5.  Single-call behaviour: with at least 5 timestamps surviving the
prune the call rejects and leaves the table untouched; with fewer it
allows and stores the pruned record plus the current time.  Scenario from
an empty table: five calls within one 60-second window all allow, the
sixth rejects, and once the window has fully elapsed a further call allows
again. -/
theorem C3_sliding_window (ip : String) (now : Int) (st : AuthService.RateState)
    (t1 t2 t3 t4 t5 t6 t7 : Int)
    (h12 : t1 ≤ t2) (h23 : t2 ≤ t3) (h34 : t3 ≤ t4) (h45 : t4 ≤ t5) (h56 : t5 ≤ t6)
    (hwin : t6 - t1 < 60) (h7 : 60 ≤ t7 - t5) :
    (5 ≤ (AuthService.prune now (st ip)).length →
      AuthService.check_rate_limit ip now st = (false, st)) ∧
    ((AuthService.prune now (st ip)).length < 5 →
      (AuthService.check_rate_limit ip now st).1 = true ∧
      (AuthService.check_rate_limit ip now st).2 ip =
        AuthService.prune now (st ip) ++ [now]) ∧
    (AuthService.runCalls ip [t1, t2, t3, t4, t5, t6] (fun _ => [])).1 =
      [true, true, true, true, true, false] ∧
    (AuthService.runCalls ip [t1, t2, t3, t4, t5, t6] (fun _ => [])).2 ip =
      [t1, t2, t3, t4, t5] ∧
    (AuthService.check_rate_limit ip t7
      ((AuthService.runCalls ip [t1, t2, t3, t4, t5, t6] (fun _ => [])).2)).1 = true := by
  have hw : AuthService.RATE_LIMIT_WINDOW = 60 := rfl
  have hcnt : AuthService.RATE_LIMIT_COUNT = 5 := rfl
  -- step 1: empty record, allow
  obtain ⟨hb1, hs1, -⟩ := AuthService.check_step_allow ip t1 (fun _ => []) [] rfl
    (by simp [AuthService.prune, hcnt])
  simp only [AuthService.prune, List.filter_nil, List.nil_append] at hs1
  -- step 2
  have hp2 : AuthService.prune t2 [t1] = [t1] :=
    AuthService.prune_eq_self t2 [t1]
      (by intro a ha; rw [List.mem_singleton] at ha; subst ha; rw [hw]; omega)
  obtain ⟨hb2, hs2, -⟩ := AuthService.check_step_allow ip t2
    (AuthService.check_rate_limit ip t1 (fun _ => [])).2 [t1] hs1
    (by rw [hp2]; simp [hcnt])
  rw [hp2, List.singleton_append] at hs2
  -- step 3
  have hp3 : AuthService.prune t3 [t1, t2] = [t1, t2] :=
    AuthService.prune_eq_self t3 [t1, t2]
      (by intro a ha; simp only [List.mem_cons, List.not_mem_nil, or_false] at ha
          rw [hw]; rcases ha with h | h <;> subst h <;> omega)
  obtain ⟨hb3, hs3, -⟩ := AuthService.check_step_allow ip t3
    (AuthService.check_rate_limit ip t2
      (AuthService.check_rate_limit ip t1 (fun _ => [])).2).2 [t1, t2] hs2
    (by rw [hp3]; simp [hcnt])
  rw [hp3, List.cons_append, List.singleton_append] at hs3
  -- step 4
  have hp4 : AuthService.prune t4 [t1, t2, t3] = [t1, t2, t3] :=
    AuthService.prune_eq_self t4 [t1, t2, t3]
      (by intro a ha; simp only [List.mem_cons, List.not_mem_nil, or_false] at ha
          rw [hw]; rcases ha with h | h | h <;> subst h <;> omega)
  obtain ⟨hb4, hs4, -⟩ := AuthService.check_step_allow ip t4
    (AuthService.check_rate_limit ip t3
      (AuthService.check_rate_limit ip t2
        (AuthService.check_rate_limit ip t1 (fun _ => [])).2).2).2 [t1, t2, t3] hs3
    (by rw [hp4]; simp [hcnt])
  rw [hp4, List.cons_append, List.cons_append, List.singleton_append] at hs4
  -- step 5
  have hp5 : AuthService.prune t5 [t1, t2, t3, t4] = [t1, t2, t3, t4] :=
    AuthService.prune_eq_self t5 [t1, t2, t3, t4]
      (by intro a ha; simp only [List.mem_cons, List.not_mem_nil, or_false] at ha
          rw [hw]; rcases ha with h | h | h | h <;> subst h <;> omega)
  obtain ⟨hb5, hs5, -⟩ := AuthService.check_step_allow ip t5
    (AuthService.check_rate_limit ip t4
      (AuthService.check_rate_limit ip t3
        (AuthService.check_rate_limit ip t2
          (AuthService.check_rate_limit ip t1 (fun _ => [])).2).2).2).2 [t1, t2, t3, t4] hs4
    (by rw [hp5]; simp [hcnt])
  rw [hp5, List.cons_append, List.cons_append, List.cons_append, List.singleton_append] at hs5
  -- step 6: five in-window entries, reject, state unchanged
  have hp6 : AuthService.prune t6 [t1, t2, t3, t4, t5] = [t1, t2, t3, t4, t5] :=
    AuthService.prune_eq_self t6 [t1, t2, t3, t4, t5]
      (by intro a ha; simp only [List.mem_cons, List.not_mem_nil, or_false] at ha
          rw [hw]; rcases ha with h | h | h | h | h <;> subst h <;> omega)
  have e6 : AuthService.check_rate_limit ip t6
      (AuthService.check_rate_limit ip t5
        (AuthService.check_rate_limit ip t4
          (AuthService.check_rate_limit ip t3
            (AuthService.check_rate_limit ip t2
              (AuthService.check_rate_limit ip t1 (fun _ => [])).2).2).2).2).2 =
      (false,
        (AuthService.check_rate_limit ip t5
          (AuthService.check_rate_limit ip t4
            (AuthService.check_rate_limit ip t3
              (AuthService.check_rate_limit ip t2
                (AuthService.check_rate_limit ip t1 (fun _ => [])).2).2).2).2).2) := by
    apply AuthService.check_rate_limit_reject
    rw [hs5, hp6, hcnt]
    simp
  -- the seventh call, after the window has fully elapsed
  have hp7 : AuthService.prune t7 [t1, t2, t3, t4, t5] = [] :=
    AuthService.prune_eq_nil t7 [t1, t2, t3, t4, t5]
      (by intro a ha; simp only [List.mem_cons, List.not_mem_nil, or_false] at ha
          rw [hw]; rcases ha with h | h | h | h | h <;> subst h <;> omega)
  refine ⟨?_, ?_, ?_, ?_, ?_⟩
  · intro h
    exact AuthService.check_rate_limit_reject ip now st (by rw [hcnt]; exact h)
  · intro h
    obtain ⟨hb, hs, -⟩ :=
      AuthService.check_step_allow ip now st (st ip) rfl (by rw [hcnt]; exact h)
    exact ⟨hb, hs⟩
  · simp only [AuthService.runCalls, e6]
    rw [hb1, hb2, hb3, hb4, hb5]
  · simp only [AuthService.runCalls, e6]
    exact hs5
  · simp only [AuthService.runCalls, e6]
    obtain ⟨hb7, -, -⟩ := AuthService.check_step_allow ip t7
      (AuthService.check_rate_limit ip t5
        (AuthService.check_rate_limit ip t4
          (AuthService.check_rate_limit ip t3
            (AuthService.check_rate_limit ip t2
              (AuthService.check_rate_limit ip t1 (fun _ => [])).2).2).2).2).2
      [t1, t2, t3, t4, t5] hs5 (by rw [hp7]; simp [hcnt])
    exact hb7

theorem C3_witness :
    (AuthService.runCalls ("a") [0, 10, 20, 30, 40, 50] (fun _ => [])).1 =
      [true, true, true, true, true, false] ∧
    (AuthService.runCalls ("a") [0, 10, 20, 30, 40, 50] (fun _ => [])).2 ("a") =
      [0, 10, 20, 30, 40] ∧
    (AuthService.check_rate_limit ("a") 105
      ((AuthService.runCalls ("a") [0, 10, 20, 30, 40, 50] (fun _ => [])).2)).1 = true :=
  ((C3_sliding_window ("a") 0 (fun _ => []) 0 10 20 30 40 50 105
    (by decide) (by decide) (by decide) (by decide) (by decide) (by decide)
    (by decide)).2).2

/-- C7: a login attempt that trips the rate limiter (at least 5 recorded
attempts for the caller's address still inside the 60-second window)
returns the RateLimited outcome with the rate table unchanged, produces
the same result whatever the contents of either credential store (the
stores are not consulted), and RateLimited is a distinct outcome from
InvalidCredentials. -/
theorem C7_login_rate_limited (username password clientHost : String) (now : Int)
    (st : AuthService.RateState)
    (hlim : 5 ≤ (AuthService.prune now (st clientHost)).length)
    (ustore1 ustore2 : String → Option AuthService.User)
    (users1 users2 : String → Option String) :
    AuthService.login username password clientHost now st ustore1 users1 =
      (.rateLimited, st) ∧
    AuthService.login username password clientHost now st ustore1 users1 =
      AuthService.login username password clientHost now st ustore2 users2 ∧
    AuthService.LoginOutcome.rateLimited ≠ AuthService.LoginOutcome.invalidCredentials := by
  have hc : AuthService.check_rate_limit clientHost now st = (false, st) :=
    AuthService.check_rate_limit_reject clientHost now st hlim
  refine ⟨?_, ?_, by simp⟩
  · simp [AuthService.login, hc]
  · simp [AuthService.login, hc]

theorem C7_witness :
    AuthService.login ("admin") ("password") ("a") 10
        (fun k => if k = ("a") then [0, 1, 2, 3, 4] else [])
        (fun _ => none) (fun _ => none) =
      (.rateLimited, fun k => if k = ("a") then [0, 1, 2, 3, 4] else []) ∧
    AuthService.login ("admin") ("password") ("a") 10
        (fun k => if k = ("a") then [0, 1, 2, 3, 4] else [])
        (fun _ => none) (fun _ => none) =
      AuthService.login ("admin") ("password") ("a") 10
        (fun k => if k = ("a") then [0, 1, 2, 3, 4] else [])
        (fun u => some { id := 1, username := u, email := u,
                         password_hash := some (AuthService.hash_password ("password") 3) })
        (fun _ => some ("password")) ∧
    AuthService.LoginOutcome.rateLimited ≠ AuthService.LoginOutcome.invalidCredentials :=
  C7_login_rate_limited ("admin") ("password") ("a") 10
    (fun k => if k = ("a") then [0, 1, 2, 3, 4] else []) (by decide)
    (fun _ => none)
    (fun u => some { id := 1, username := u, email := u,
                     password_hash := some (AuthService.hash_password ("password") 3) })
    (fun _ => none) (fun _ => some ("password"))

/-- C8: rate-limit bookkeeping for distinct client keys is independent — a
check for key A leaves key B's stored record untouched, and a subsequent
check for B yields the same outcome and the same new record for B whether
or not the check for A happened first. -/
theorem C8_key_independence (A B : String) (hAB : A ≠ B) (now now2 : Int)
    (st : AuthService.RateState) :
    (AuthService.check_rate_limit A now st).2 B = st B ∧
    (AuthService.check_rate_limit B now2 ((AuthService.check_rate_limit A now st).2)).1 =
      (AuthService.check_rate_limit B now2 st).1 ∧
    (AuthService.check_rate_limit B now2 ((AuthService.check_rate_limit A now st).2)).2 B =
      (AuthService.check_rate_limit B now2 st).2 B := by
  have hB : (AuthService.check_rate_limit A now st).2 B = st B := by
    unfold AuthService.check_rate_limit
    by_cases h : AuthService.RATE_LIMIT_COUNT ≤ (AuthService.prune now (st A)).length
    · rw [if_pos h]
    · rw [if_neg h]
      simp [Ne.symm hAB]
  obtain ⟨h1, h2⟩ := AuthService.check_rate_limit_congr B now2
    (AuthService.check_rate_limit A now st).2 st hB
  exact ⟨hB, h1, h2⟩

theorem C8_witness :
    (AuthService.check_rate_limit ("a") 0
      (fun k => if k = ("b") then [0] else [])).2 ("b") =
      (fun k : String => if k = ("b") then [(0 : Int)] else []) ("b") ∧
    (AuthService.check_rate_limit ("b") 1
      ((AuthService.check_rate_limit ("a") 0
        (fun k => if k = ("b") then [0] else [])).2)).1 =
      (AuthService.check_rate_limit ("b") 1
        (fun k => if k = ("b") then [0] else [])).1 ∧
    (AuthService.check_rate_limit ("b") 1
      ((AuthService.check_rate_limit ("a") 0
        (fun k => if k = ("b") then [0] else [])).2)).2 ("b") =
      (AuthService.check_rate_limit ("b") 1
        (fun k => if k = ("b") then [0] else [])).2 ("b") :=
  C8_key_independence ("a") ("b") (by decide) 0 1
    (fun k => if k = ("b") then [0] else [])

/-- C4: the Auth Gate middleware short-circuits on a present-but-invalid
token — whenever a candidate token is found (bearer header first, then the
access_token cookie) and decoding fails, the dispatch result is the 401
rejection for every possible wrapped handler, so the handler is never
invoked and the request is never downgraded to anonymous; and whenever no
candidate token is found, the request proceeds to the handler with the
anonymous identity (`none`) attached. -/
theorem C4_auth_gate (α : Type) (authHeader : Option AuthService.AuthHeaderVal)
    (accessCookie : Option TokenStr) (publicKey : Nat) (now : Int)
    (callNext : Option Payload → α) :
    (∀ tok e, Middleware.getToken authHeader accessCookie = some tok →
      jwtDecode tok publicKey now = .error e →
      Middleware.dispatch authHeader accessCookie publicKey now callNext =
        .rejected 401 "Invalid token") ∧
    (Middleware.getToken authHeader accessCookie = none →
      Middleware.dispatch authHeader accessCookie publicKey now callNext =
        .handled none (callNext none)) := by
  constructor
  · intro tok e hget hdec
    simp only [Middleware.dispatch, hget, hdec]
  · intro hget
    simp only [Middleware.dispatch, hget]

theorem C4_witness :
    Middleware.dispatch (some (.bearer none)) none 0 0 (fun _ => (7 : Nat)) =
      .rejected 401 "Invalid token" ∧
    Middleware.dispatch none none 0 0 (fun _ => (7 : Nat)) = .handled none 7 :=
  ⟨(C4_auth_gate Nat (some (.bearer none)) none 0 0 (fun _ => (7 : Nat))).1
      none .malformed rfl rfl,
   (C4_auth_gate Nat none none 0 0 (fun _ => (7 : Nat))).2 rfl⟩

/-- C5: the refresh endpoint verifies the presented token requiring kind
refresh (a decodable token whose payload lacks the refresh marker is
rejected), rejects with 401 when the token's subject is no longer in the
user store, and otherwise returns exactly one freshly minted token — an
access token (no refresh marker) carrying the same subject and uid as the
presented token; no new refresh token is minted. -/
theorem C5_refresh_endpoint (refreshCookie : Option TokenStr)
    (authHeader : Option AuthService.AuthHeaderVal) (accessCookie : Option TokenStr)
    (now : Int) (user_store : String → Option AuthService.User)
    (tok : TokenStr) (p : Payload)
    (hfound : refreshCookie.orElse
      (fun _ => AuthService.get_token_from_request authHeader accessCookie) = some tok)
    (hdec : jwtDecode tok AuthService.PUBLIC_KEY now = .ok p) :
    (p.type ≠ some ("refresh") →
      AuthService.refresh refreshCookie authHeader accessCookie now user_store =
        .error AuthService.invalidTokenError) ∧
    (p.type = some ("refresh") →
      (user_store p.sub = none →
        AuthService.refresh refreshCookie authHeader accessCookie now user_store =
          .error ⟨401, "User not found"⟩) ∧
      (∀ user, user_store p.sub = some user → user.username = p.sub →
        p.uid = some user.id →
        AuthService.refresh refreshCookie authHeader accessCookie now user_store =
          .ok (AuthService.create_token ⟨p.sub, p.uid⟩ now (some (60 * 30)) false) ∧
        (AuthService.create_token ⟨p.sub, p.uid⟩ now (some (60 * 30)) false).payload.sub
          = p.sub ∧
        (AuthService.create_token ⟨p.sub, p.uid⟩ now (some (60 * 30)) false).payload.uid
          = p.uid ∧
        (AuthService.create_token ⟨p.sub, p.uid⟩ now (some (60 * 30)) false).payload.type
          = none)) := by
  constructor
  · intro htyp
    simp [AuthService.refresh, hfound, AuthService.verify_token, hdec, htyp]
  · intro htyp
    constructor
    · intro huser
      simp [AuthService.refresh, hfound, AuthService.verify_token, hdec, htyp, huser]
    · intro user huser hname huid
      refine ⟨?_, rfl, rfl, rfl⟩
      simp [AuthService.refresh, hfound, AuthService.verify_token, hdec, htyp, huser,
        hname, huid]

theorem C5_witness :
    AuthService.refresh
        (some (some (AuthService.create_token ⟨"alice", some 1⟩ 0 (some 604800) true)))
        none none 10
        (fun k => if k = ("alice") then
          some { id := 1, username := "alice", email := "alice",
                 password_hash := some (AuthService.hash_password ("pw") 3) }
          else none) =
      .ok (AuthService.create_token ⟨"alice", some 1⟩ 10 (some (60 * 30)) false) ∧
    (AuthService.create_token ⟨"alice", some 1⟩ 10 (some (60 * 30)) false).payload.sub
      = "alice" ∧
    (AuthService.create_token ⟨"alice", some 1⟩ 10 (some (60 * 30)) false).payload.uid
      = some 1 ∧
    (AuthService.create_token ⟨"alice", some 1⟩ 10 (some (60 * 30)) false).payload.type
      = none :=
  ((C5_refresh_endpoint
      (some (some (AuthService.create_token ⟨"alice", some 1⟩ 0 (some 604800) true)))
      none none 10
      (fun k => if k = ("alice") then
        some { id := 1, username := "alice", email := "alice",
               password_hash := some (AuthService.hash_password ("pw") 3) }
        else none)
      (some (AuthService.create_token ⟨"alice", some 1⟩ 0 (some 604800) true))
      { sub := "alice", uid := some 1, exp := some 604800, iat := some 0,
        type := some ("refresh") }
      rfl rfl).2 rfl).2
    { id := 1, username := "alice", email := "alice",
      password_hash := some (AuthService.hash_password ("pw") 3) }
    (by simp) rfl rfl

/-- C6: password verification succeeds on a plaintext against its own
salted hash, fails against the hash of any different plaintext, and
returns false (rather than raising — it is a total function) on a
malformed hash string. -/
theorem C6_password_hashing (p q : String) (salt1 salt2 : Nat) (hpq : p ≠ q) :
    AuthService.verify_password p (some (AuthService.hash_password p salt1)) = true ∧
    AuthService.verify_password p (some (AuthService.hash_password q salt2)) = false ∧
    AuthService.verify_password p none = false := by
  refine ⟨?_, ?_, rfl⟩
  · simp [AuthService.verify_password, AuthService.hash_password, bcrypt_digest]
  · simp [AuthService.verify_password, AuthService.hash_password, bcrypt_digest, hpq]

theorem C6_witness :
    AuthService.verify_password ("pw") (some (AuthService.hash_password ("pw") 3)) =
      true ∧
    AuthService.verify_password ("pw") (some (AuthService.hash_password ("other") 4)) =
      false ∧
    AuthService.verify_password ("pw") none = false :=
  C6_password_hashing ("pw") ("other") 3 4 (by decide)
